import Mathlib

/-!
Verification of the auth-proxy service and file watcher.

The definitions below are a shallow embedding of the Python source:
`auth_proxy.py` (token validation, session store, HTTP endpoint handlers,
redeploy client) and `file_watcher.py` (mtime polling loop).  Time is
modelled as `Nat` seconds; JSON values as an inductive `Json`; the global
`sessions` dict as an insertion-ordered association list threaded
explicitly through each operation.  External HTTP peers are modelled as
scripted outcomes passed in as parameters.
-/

/-- JSON values, as produced by parsing a request or response body.
An object is its field list in insertion order; a parsed Python dict has
unique keys. -/
inductive Json where
  | null
  | bool (b : Bool)
  | num (n : Int)
  | str (s : String)
  | arr (elems : List Json)
  | obj (fields : List (String × Json))

/-- Python truthiness of a JSON value (`if not token` in the source):
`None`, `False`, `0`, `""`, `[]` and `{}` are falsy. -/
def Json.truthy : Json → Bool
  | .null => false
  | .bool b => b
  | .num n => n != 0
  | .str s => s != ""
  | .arr elems => !elems.isEmpty
  | .obj fields => !fields.isEmpty

/-- Field lookup in a JSON object field list (`data.get(key)`): first
match; a parsed dict has unique keys so this is dict lookup. -/
def lookupField : List (String × Json) → String → Option Json
  | [], _ => none
  | e :: rest, k => if e.1 = k then some e.2 else lookupField rest k

/-- Python dict item assignment `d[key] = v`: replaces the value of an
existing key in place, otherwise appends the key at the end. -/
def setField : List (String × Json) → String → Json → List (String × Json)
  | [], k, v => [(k, v)]
  | e :: rest, k, v => if e.1 = k then (k, v) :: rest else e :: setField rest k v

/-- One entry of the `sessions` dict: `{token: ..., expires: ...}`.
The token is the JSON value taken from the validate request body; the
expiry is an absolute time in seconds. -/
structure SessionData where
  token : Json
  expires : Nat

/-- The in-memory session store `sessions`, an insertion-ordered map from
session id to session data (Python dicts preserve insertion order). -/
abbrev Store := List (String × SessionData)

/-- Membership test / lookup `sessions[session_id]`. -/
def lookupSession : Store → String → Option SessionData
  | [], _ => none
  | e :: rest, sid => if e.1 = sid then some e.2 else lookupSession rest sid

/-- `del sessions[session_id]`: the key is no longer present (keys of the
dict are unique, so removing every entry with this key is dict deletion). -/
def eraseSession : Store → String → Store
  | [], _ => []
  | e :: rest, sid =>
    if e.1 = sid then eraseSession rest sid else e :: eraseSession rest sid

/-- Fixed session lifetime: `SESSION_DURATION_HOURS = 8`. -/
def SESSION_DURATION_HOURS : Nat := 8

/-- `cleanup_sessions()`: remove every entry whose expiry is strictly in
the past (`data["expires"] < now`). -/
def cleanup_sessions (sessions : Store) (now : Nat) : Store :=
  sessions.filter (fun e => decide (¬ e.2.expires < now))

/-- `create_session(token)`: insert a fresh entry with expiry
`now + 8 hours` (the fresh id `session_id` stands for the value of
`secrets.token_urlsafe(32)`), then sweep expired entries, and return the
new id. -/
def create_session (sessions : Store) (token : Json) (session_id : String)
    (now : Nat) : String × Store :=
  (session_id,
   cleanup_sessions
     (sessions ++
       [(session_id, { token := token, expires := now + SESSION_DURATION_HOURS * 3600 })])
     now)

/-- `is_valid_session(session_id)`: false for a falsy or unknown id; for a
known entry, delete it and return false when `expires < now`, else true.
Returns the updated store alongside the boolean. -/
def is_valid_session (sessions : Store) (session_id : Option String)
    (now : Nat) : Bool × Store :=
  match session_id with
  | none => (false, sessions)
  | some sid =>
    if sid = "" then (false, sessions)
    else
      match lookupSession sessions sid with
      | none => (false, sessions)
      | some s =>
        if s.expires < now then (false, eraseSession sessions sid)
        else (true, sessions)

/-- Outcome of the external permission check inside `validate_quix_token`:
`.error` covers every raised exception (transport error, non-2xx turned
into an exception by the client library, malformed response, missing
library); `.ok r` means the call completed and `bool(result) = r`. -/
abbrev ApiOutcome := Except Unit Bool

/-- `validate_quix_token(token)`: fail closed.  Returns the boolean result
together with a flag recording whether the external call was issued.
A missing (`None`) or empty token short-circuits to false with no call;
any exception from the call collapses to false. -/
def validate_quix_token (token : Option String) (api : ApiOutcome) :
    Bool × Bool :=
  match token with
  | none => (false, false)
  | some t =>
    if t = "" then (false, false)
    else
      match api with
      | .error _ => (false, true)
      | .ok r => (r, true)

/-- Response of the `/internal-token` endpoint: status code and the JSON
token payload (`{"token": ...}` with `none` standing for `null`). -/
structure TokenResp where
  token : Option Json
  status : Nat

/-- The loop condition of `/internal-token`:
`data["expires"] > now and data.get("token")`. -/
def validEntry (now : Nat) (e : String × SessionData) : Bool :=
  decide (now < e.2.expires) && e.2.token.truthy

/-- `/internal-token` handler: scan the store in insertion order and
return the first entry with `expires > now` and a truthy token; 404 with
a null token when none qualifies.  The handler does not mutate the store,
which is returned unchanged. -/
def internal_token (sessions : Store) (now : Nat) : TokenResp × Store :=
  (match sessions.find? (validEntry now) with
   | some e => { token := some e.2.token, status := 200 }
   | none => { token := none, status := 404 },
   sessions)

/-- `/internal-auth` handler: 200 when `is_valid_session` accepts the
cookie, else 401; no body.  The store update of `is_valid_session` is
threaded through. -/
def internal_auth (sessions : Store) (cookie : Option String) (now : Nat) :
    Nat × Store :=
  (if (is_valid_session sessions cookie now).1 then 200 else 401,
   (is_valid_session sessions cookie now).2)

/-- The attributes passed to `response.set_cookie` in `/validate-token`. -/
structure CookieSpec where
  key : String
  value : String
  httponly : Bool
  secure : Bool
  samesite : String
  max_age : Nat

/-- Response of the `/validate-token` endpoint: a status code and the
cookie set on it, if any. -/
structure EndpointResponse where
  status : Nat
  cookie : Option CookieSpec

/-- `/validate-token` handler.  `body = none` models a request body that
`request.json()` fails to parse (the exception is caught and turned into
a 500); a parsed body that is not an object makes `data.get` raise, also
caught as 500.  Otherwise: falsy or absent token field gives 400; the
token validator (scripted as `validator`) decides 401 versus 200; on 200
a session is created and the session cookie is set http-only, secure,
samesite=none, with max age `8 * 3600`. -/
def validate_token (body : Option Json) (validator : Json → Bool)
    (sessions : Store) (newId : String) (now : Nat) :
    EndpointResponse × Store :=
  match body with
  | none => ({ status := 500, cookie := none }, sessions)
  | some j =>
    match j with
    | .obj fields =>
      let token := (lookupField fields "token").getD .null
      if token.truthy then
        if validator token then
          let r := create_session sessions token newId now
          ({ status := 200,
             cookie := some { key := "quix_session", value := r.1,
                              httponly := true, secure := true,
                              samesite := "none",
                              max_age := SESSION_DURATION_HOURS * 3600 } }, r.2)
        else ({ status := 401, cookie := none }, sessions)
      else ({ status := 400, cookie := none }, sessions)
    | _ => ({ status := 500, cookie := none }, sessions)

/-- An HTTP call issued by the redeploy client, in the order issued. -/
inductive HttpCall where
  | get (url : String)
  | put (url : String) (body : List (String × Json))
  | post (url : String)

/-- How `redeploy_with_latest` fails: a missing configuration value raises
`ValueError` before any call; `raise_for_status` raises on any non-2xx
response, recorded with the offending call and status. -/
inductive RedeployError where
  | configError (msg : String)
  | httpError (call : HttpCall) (status : Nat)

/-- Configuration read from the environment. -/
structure RedeployConfig where
  portalApi : String
  workspaceId : String

/-- Scripted responses of the external deployment API: status of each of
the three calls, the deployment descriptor returned by the GET (a JSON
object, given as its field list), and the JSON body of the final POST. -/
structure DeployEnv where
  getStatus : Nat
  getBody : List (String × Json)
  putStatus : Nat
  postStatus : Nat
  postBody : Json

/-- `response.raise_for_status()` passes exactly the 2xx statuses. -/
def is2xx (s : Nat) : Bool := decide (200 ≤ s) && decide (s < 300)

/-- The URL used for both the GET and the PUT:
`{PORTAL_API}/{WORKSPACE_ID}/deployments/{deployment_id}`. -/
def deploymentsUrl (cfg : RedeployConfig) (did : String) : String :=
  cfg.portalApi ++ "/" ++ cfg.workspaceId ++ "/deployments/" ++ did

/-- The URL of the redeploy trigger:
`{PORTAL_API}/{WORKSPACE_ID}/deployments/{deployment_id}/redeploy`. -/
def triggerUrl (cfg : RedeployConfig) (did : String) : String :=
  deploymentsUrl cfg did ++ "/redeploy"

/-- `redeploy_with_latest(deployment_id, token)`: check configuration, GET
the deployment, set its `versionTag` field to `"latest"`, PUT it back,
POST the redeploy trigger, and return the JSON body of the POST.  Any
non-2xx aborts at that step.  The second component records the calls
actually issued, in order. -/
def redeploy_with_latest (cfg : RedeployConfig) (env : DeployEnv)
    (deployment_id : String) : Except RedeployError Json × List HttpCall :=
  if cfg.portalApi = "" then
    (.error (.configError "Quix__Portal__Api environment variable is not set"), [])
  else if cfg.workspaceId = "" then
    (.error (.configError "Quix__Workspace__Id environment variable is not set"), [])
  else
    let getUrl := deploymentsUrl cfg deployment_id
    if is2xx env.getStatus then
      let deployment := setField env.getBody "versionTag" (.str "latest")
      let updateUrl := deploymentsUrl cfg deployment_id
      if is2xx env.putStatus then
        let redeployUrl := triggerUrl cfg deployment_id
        if is2xx env.postStatus then
          (.ok env.postBody,
           [.get getUrl, .put updateUrl deployment, .post redeployUrl])
        else
          (.error (.httpError (.post redeployUrl) env.postStatus),
           [.get getUrl, .put updateUrl deployment, .post redeployUrl])
      else
        (.error (.httpError (.put updateUrl deployment) env.putStatus),
         [.get getUrl, .put updateUrl deployment])
    else
      (.error (.httpError (.get getUrl) env.getStatus), [.get getUrl])

/-- One iteration of the watcher loop in `file_watcher.py`: given the
remembered `last_mtime` and the freshly observed mtime (`none` when the
file is absent), return the new `last_mtime` and whether `commit_file`
is triggered.  Creation and mtime change commit; deletion is logged only;
an unchanged mtime does nothing. -/
def watcher_step (last : Option Int) (current : Option Int) :
    Option Int × Bool :=
  match current with
  | none =>
    match last with
    | some _ => (none, false)
    | none => (none, false)
  | some m =>
    match last with
    | none => (some m, true)
    | some l => if m ≠ l then (some m, true) else (some l, false)

/-- Fold the watcher step over a sequence of observed mtimes, recording
for each observation whether a commit was triggered. -/
def watcher_run (init : Option Int) : List (Option Int) → List Bool
  | [] => []
  | o :: rest =>
    let s := watcher_step init o
    s.2 :: watcher_run s.1 rest

/-! ## Helper lemmas -/

/-- A successful lookup means the pair is in the store. -/
theorem lookupSession_mem {sessions : Store} {sid : String} {d : SessionData}
    (h : lookupSession sessions sid = some d) : (sid, d) ∈ sessions := by
  induction sessions with
  | nil => cases h
  | cons e rest ih =>
    obtain ⟨a, b⟩ := e
    by_cases he : a = sid
    · subst he
      simp only [lookupSession, if_pos rfl] at h
      cases h
      exact List.mem_cons_self _ _
    · simp only [lookupSession] at h
      rw [if_neg he] at h
      exact List.mem_cons_of_mem _ (ih h)

/-- After deletion, lookup of the deleted key fails. -/
theorem lookupSession_eraseSession (sessions : Store) (sid : String) :
    lookupSession (eraseSession sessions sid) sid = none := by
  induction sessions with
  | nil => rfl
  | cons e rest ih =>
    by_cases he : e.1 = sid
    · simpa only [eraseSession, if_pos he] using ih
    · simpa only [eraseSession, if_neg he, lookupSession] using ih

/-- Truth characterization of `is_valid_session`: it accepts exactly a
nonempty id that is present in the store with an expiry not in the past. -/
theorem is_valid_session_true_iff (sessions : Store) (cookie : Option String)
    (now : Nat) :
    (is_valid_session sessions cookie now).1 = true ↔
      ∃ sid d, cookie = some sid ∧ sid ≠ "" ∧
        lookupSession sessions sid = some d ∧ ¬ d.expires < now := by
  cases cookie with
  | none => simp [is_valid_session]
  | some sid =>
    by_cases hsid : sid = ""
    · subst hsid
      simp [is_valid_session]
    · cases hlk : lookupSession sessions sid with
      | none => simp [is_valid_session, hsid, hlk]
      | some s =>
        by_cases hexp : s.expires < now
        · simp [is_valid_session, hsid, hlk, hexp]
        · simp only [is_valid_session, if_neg hsid, hlk, if_neg hexp, true_iff]
          exact ⟨sid, s, rfl, hsid, hlk, hexp⟩

/-! ## Claim theorems -/

/-- Claim C1: the token validator fails closed.  A missing or empty token
yields `false` with no external call issued; for any other token, an
exception from the external permission check (transport error, non-2xx,
malformed response) yields `false`; the result is `true` exactly when the
token is nonempty and the external check reports success.  The function
is total into `Bool`, so it never raises to its caller. -/
theorem validate_quix_token_fails_closed (t : Option String) (api : ApiOutcome) :
    ((t = none ∨ t = some "") → validate_quix_token t api = (false, false)) ∧
    ((validate_quix_token t api).1 = true ↔
       (∃ s, t = some s ∧ s ≠ "") ∧ api = Except.ok true) := by
  constructor
  · rintro (rfl | rfl) <;> rfl
  · cases t with
    | none => simp [validate_quix_token]
    | some s =>
      by_cases hs : s = ""
      · subst hs
        simp [validate_quix_token]
      · cases api with
        | error e => simp [validate_quix_token, hs]
        | ok r =>
          cases r with
          | false => simp [validate_quix_token, hs]
          | true =>
            simp [validate_quix_token, hs]

/-- Witness for C1 at concrete inputs: a missing token returns false with
no call even when the scripted external check would succeed. -/
theorem validate_quix_token_fails_closed_witness :
    validate_quix_token none (Except.ok true) = (false, false) :=
  (validate_quix_token_fails_closed none (Except.ok true)).1 (Or.inl rfl)

/-- Claim C5: for every store, clock and cookie value (missing, malformed,
unknown, expired or valid), the internal-check endpoint returns status 200
exactly when the cookie names a live session, status 401 otherwise, and
never any other status; the modelled response carries no body. -/
theorem internal_auth_status_contract (sessions : Store)
    (cookie : Option String) (now : Nat) :
    ((internal_auth sessions cookie now).1 = 200 ∨
     (internal_auth sessions cookie now).1 = 401) ∧
    ((internal_auth sessions cookie now).1 = 200 ↔
       ∃ sid d, cookie = some sid ∧ sid ≠ "" ∧
         lookupSession sessions sid = some d ∧ ¬ d.expires < now) := by
  have hiff := is_valid_session_true_iff sessions cookie now
  unfold internal_auth
  by_cases h : (is_valid_session sessions cookie now).1
  · rw [if_pos h]
    exact ⟨Or.inl rfl, by simpa [h] using hiff⟩
  · rw [if_neg h]
    constructor
    · exact Or.inr rfl
    · simp only [show (401 : Nat) ≠ 200 by decide, false_iff]
      rw [Bool.not_eq_true] at h
      rw [h] at hiff
      intro hex
      exact absurd (hiff.mpr hex) (by decide)

/-- Claim C8: the watcher commits exactly on the absent-to-present and
changed-mtime transitions; an unchanged mtime and a present-to-absent
transition (deletion) trigger no commit.  On the observed mtime sequence
None, 100, 100, 200, None the commits are exactly at the first and third
observations. -/
theorem watcher_commit_policy :
    (∀ last current, (watcher_step last current).2 = true ↔
        ((last = none ∧ current ≠ none) ∨
         (∃ l m, last = some l ∧ current = some m ∧ l ≠ m))) ∧
    watcher_run none [some 100, some 100, some 200, none] =
      [true, false, true, false] := by
  constructor
  · intro last current
    cases current with
    | none => cases last <;> simp [watcher_step]
    | some m =>
      cases last with
      | none => simp [watcher_step]
      | some l =>
        by_cases h : m = l
        · subst h
          simp [watcher_step]
        · simp only [watcher_step, if_pos h, true_iff]
          exact Or.inr ⟨l, m, rfl, rfl, fun he => h he.symm⟩
  · rfl

/-- Claim C2: `is_valid_session` returns false for missing or unknown
identifiers; for an identifier present in the store it returns false
strictly after the expiry of the entry, deleting it so that a repeated
call still returns false, and true strictly before the expiry.  The
hypothesis that every stored key is nonempty is a reachability invariant:
keys are produced by `secrets.token_urlsafe(32)` and never empty. -/
theorem is_valid_session_expiry (sessions : Store) (sid : Option String)
    (now : Nat) (hkeys : ∀ e ∈ sessions, e.1 ≠ "") :
    ((sid = none ∨ ∃ s, sid = some s ∧ lookupSession sessions s = none) →
       (is_valid_session sessions sid now).1 = false) ∧
    (∀ s d, sid = some s → lookupSession sessions s = some d →
       d.expires < now →
       (is_valid_session sessions sid now).1 = false ∧
       lookupSession (is_valid_session sessions sid now).2 s = none ∧
       (is_valid_session (is_valid_session sessions sid now).2 sid now).1
         = false) ∧
    (∀ s d, sid = some s → lookupSession sessions s = some d →
       now < d.expires →
       (is_valid_session sessions sid now).1 = true) := by
  refine ⟨?_, ?_, ?_⟩
  · rintro (rfl | ⟨s, rfl, hlk⟩)
    · rfl
    · by_cases hs : s = ""
      · simp [is_valid_session, hs]
      · simp [is_valid_session, hs, hlk]
  · rintro s d rfl hlk hexp
    have hs : s ≠ "" := hkeys (s, d) (lookupSession_mem hlk)
    have h1 : is_valid_session sessions (some s) now =
        (false, eraseSession sessions s) := by
      simp [is_valid_session, hs, hlk, hexp]
    refine ⟨by rw [h1], ?_, ?_⟩
    · rw [h1]
      exact lookupSession_eraseSession sessions s
    · rw [h1]
      simp [is_valid_session, hs, lookupSession_eraseSession]
  · rintro s d rfl hlk hlt
    have hs : s ≠ "" := hkeys (s, d) (lookupSession_mem hlk)
    have hexp : ¬ d.expires < now := by omega
    simp [is_valid_session, hs, hlk, hexp]

/-- Witness for C2 at concrete inputs: an entry that expired at time 5 is
rejected at time 10, deleted, and a repeated call still rejects it. -/
theorem is_valid_session_expiry_witness :
    (is_valid_session [("a", ⟨Json.str "t", 5⟩)] (some "a") 10).1 = false ∧
    lookupSession
      (is_valid_session [("a", ⟨Json.str "t", 5⟩)] (some "a") 10).2 "a"
      = none ∧
    (is_valid_session
      (is_valid_session [("a", ⟨Json.str "t", 5⟩)] (some "a") 10).2
      (some "a") 10).1 = false :=
  (is_valid_session_expiry [("a", ⟨Json.str "t", 5⟩)] (some "a") 10
      (by decide)).2.1 "a" ⟨Json.str "t", 5⟩ rfl (by simp [lookupSession])
    (by decide)

/-- Counterexample to claim C9 as stated: the internal-token lookup scans
an entry whose expiry (5) has passed at the current time (10), yet the
entry is still present in the store afterwards — the handler performs no
deletion. -/
theorem internal_token_keeps_expired :
    ((5 : Nat) < 10) ∧
    (internal_token [("sid1", ⟨Json.str "tok", 5⟩)] 10).1.status = 404 ∧
    (internal_token [("sid1", ⟨Json.str "tok", 5⟩)] 10).2 =
      [("sid1", ⟨Json.str "tok", 5⟩)] ∧
    ("sid1", (⟨Json.str "tok", 5⟩ : SessionData)) ∈
      (internal_token [("sid1", ⟨Json.str "tok", 5⟩)] 10).2 := by
  refine ⟨by decide, rfl, rfl, ?_⟩
  exact List.mem_cons_self _ _

/-- Claim C9 (amended): expired entries are destroyed lazily by an
`is_valid` read that observes their expiry and opportunistically by the
sweep inside `create`; the internal-token lookup, however, does not
destroy the expired entries it scans — it leaves the store unchanged. -/
theorem expiry_destruction (sessions : Store) (token : Json)
    (newId s : String) (d : SessionData) (now : Nat) :
    (∀ e ∈ (create_session sessions token newId now).2,
       ¬ e.2.expires < now) ∧
    (s ≠ "" → lookupSession sessions s = some d → d.expires < now →
       lookupSession (is_valid_session sessions (some s) now).2 s = none) ∧
    (internal_token sessions now).2 = sessions := by
  refine ⟨?_, ?_, rfl⟩
  · intro e he
    simp only [create_session, cleanup_sessions] at he
    have := (List.mem_filter.mp he).2
    simpa using this
  · intro hs hlk hexp
    simp [is_valid_session, hs, hlk, hexp, lookupSession_eraseSession]

/-- Witness for C9 (amended) at concrete inputs: the sweep inside create
removes an expired entry, and an is_valid read deletes the expired entry
it observes. -/
theorem expiry_destruction_witness :
    (∀ e ∈ (create_session [("a", ⟨Json.str "t", 5⟩)] (Json.str "u") "b"
        10).2, ¬ e.2.expires < 10) ∧
    lookupSession
      (is_valid_session [("a", ⟨Json.str "t", 5⟩)] (some "a") 10).2 "a"
      = none :=
  ⟨(expiry_destruction [("a", ⟨Json.str "t", 5⟩)] (Json.str "u") "b" "a"
      ⟨Json.str "t", 5⟩ 10).1,
   (expiry_destruction [("a", ⟨Json.str "t", 5⟩)] (Json.str "u") "b" "a"
      ⟨Json.str "t", 5⟩ 10).2.1 (by decide) (by simp [lookupSession])
     (by decide)⟩

/-- Claim C6: the internal-token endpoint returns 200 with the token of
some unexpired session exactly when at least one unexpired session
exists, and 404 with a null token otherwise.  The hypothesis that every
stored token is truthy is a reachability invariant: `create_session` is
only called by the validate endpoint after rejecting a falsy token with
status 400. -/
theorem internal_token_contract (sessions : Store) (now : Nat)
    (hwf : ∀ e ∈ sessions, e.2.token.truthy = true) :
    ((∃ e ∈ sessions, now < e.2.expires) →
       (internal_token sessions now).1.status = 200 ∧
       ∃ e ∈ sessions, now < e.2.expires ∧
         (internal_token sessions now).1.token = some e.2.token) ∧
    ((∀ e ∈ sessions, ¬ now < e.2.expires) →
       (internal_token sessions now).1.status = 404 ∧
       (internal_token sessions now).1.token = none) := by
  constructor
  · rintro ⟨e, he, hlt⟩
    have hpe : validEntry now e = true := by
      simp [validEntry, hlt, hwf e he]
    have hsome : (sessions.find? (validEntry now)).isSome :=
      List.find?_isSome.mpr ⟨e, he, hpe⟩
    obtain ⟨a, ha⟩ := Option.isSome_iff_exists.mp hsome
    have hmem := List.mem_of_find?_eq_some ha
    have hpa := List.find?_some ha
    have hlta : now < a.2.expires := by
      have := (Bool.and_eq_true_iff.mp hpa).1
      exact of_decide_eq_true this
    refine ⟨by simp [internal_token, ha], a, hmem, hlta,
      by simp [internal_token, ha]⟩
  · intro hall
    have hnone : sessions.find? (validEntry now) = none := by
      rw [List.find?_eq_none]
      intro x hx hpx
      have := (Bool.and_eq_true_iff.mp hpx).1
      exact absurd (of_decide_eq_true this) (hall x hx)
    exact ⟨by simp [internal_token, hnone], by simp [internal_token, hnone]⟩

/-- Witness for C6 at concrete inputs: with one unexpired session the
endpoint returns 200 and its token; with only an expired session it
returns 404 and a null token. -/
theorem internal_token_contract_witness :
    (internal_token [("a", ⟨Json.str "t", 100⟩)] 10).1.status = 200 ∧
    (internal_token [("b", ⟨Json.str "u", 5⟩)] 10).1.status = 404 :=
  ⟨((internal_token_contract [("a", ⟨Json.str "t", 100⟩)] 10 (by decide)).1
      ⟨("a", ⟨Json.str "t", 100⟩), by simp, by decide⟩).1,
   ((internal_token_contract [("b", ⟨Json.str "u", 5⟩)] 10 (by decide)).2
      (by decide)).1⟩

/-- Claim C10: when several unexpired sessions exist, the internal-token
endpoint returns the token of the first unexpired entry in the insertion
order of the store — the earliest-created one, since creation appends at
the end — regardless of what follows it. -/
theorem internal_token_oldest_first (pre post : Store) (sid : String)
    (d : SessionData) (now : Nat)
    (hpre : ∀ e ∈ pre, e.2.expires ≤ now)
    (hd : now < d.expires) (ht : d.token.truthy = true) :
    internal_token (pre ++ (sid, d) :: post) now =
      ({ token := some d.token, status := 200 }, pre ++ (sid, d) :: post) := by
  have hprenone : pre.find? (validEntry now) = none := by
    rw [List.find?_eq_none]
    intro x hx hpx
    have hlt := of_decide_eq_true (Bool.and_eq_true_iff.mp hpx).1
    have := hpre x hx
    omega
  have hpd : validEntry now (sid, d) = true := by
    simp [validEntry, hd, ht]
  have hfind : (pre ++ (sid, d) :: post).find? (validEntry now) =
      some (sid, d) := by
    rw [List.find?_append, hprenone]
    simp [List.find?_cons_of_pos _ hpd]
  simp [internal_token, hfind]

/-- Witness for C10 at concrete inputs: with an expired entry first, then
two unexpired entries, the endpoint returns the token of the older of the
two unexpired entries, not the newest one. -/
theorem internal_token_oldest_first_witness :
    internal_token
      [("old", ⟨Json.str "x", 5⟩), ("mid", ⟨Json.str "first", 100⟩),
       ("new", ⟨Json.str "second", 200⟩)] 10 =
      ({ token := some (Json.str "first"), status := 200 },
       [("old", ⟨Json.str "x", 5⟩), ("mid", ⟨Json.str "first", 100⟩),
        ("new", ⟨Json.str "second", 200⟩)]) :=
  internal_token_oldest_first [("old", ⟨Json.str "x", 5⟩)]
    [("new", ⟨Json.str "second", 200⟩)] "mid" ⟨Json.str "first", 100⟩ 10
    (by decide) (by decide) (by decide)

/-- Setting a field makes it present with the new value. -/
theorem lookupField_setField_self (fs : List (String × Json)) (k : String)
    (v : Json) : lookupField (setField fs k v) k = some v := by
  induction fs with
  | nil => simp [setField, lookupField]
  | cons e rest ih =>
    by_cases he : e.1 = k
    · simp [setField, he, lookupField]
    · simp [setField, he, lookupField, ih]

/-- Setting a field leaves every other field unchanged. -/
theorem lookupField_setField_ne (fs : List (String × Json)) (k k2 : String)
    (v : Json) (h : k2 ≠ k) :
    lookupField (setField fs k v) k2 = lookupField fs k2 := by
  induction fs with
  | nil => simp [setField, lookupField, Ne.symm h]
  | cons e rest ih =>
    by_cases he : e.1 = k
    · have hek2 : ¬ e.1 = k2 := by
        rw [he]
        exact Ne.symm h
      simp [setField, he, lookupField, Ne.symm h, hek2]
    · by_cases he2 : e.1 = k2
      · simp [setField, he, lookupField, he2, h]
      · simp [setField, he, lookupField, he2, ih]

/-- Claim C3: with the configuration present, the redeploy operation
issues exactly GET, PUT (with the version tag set), POST in that order
and returns the JSON body of the POST; a non-2xx status at any step
aborts immediately with a propagated HTTP error, truncating the call
sequence there — in particular a failing PUT means no POST is ever
issued — and nothing is retried. -/
theorem redeploy_call_sequence (cfg : RedeployConfig) (env : DeployEnv)
    (did : String) (hp : cfg.portalApi ≠ "") (hw : cfg.workspaceId ≠ "") :
    (is2xx env.getStatus = true → is2xx env.putStatus = true →
       is2xx env.postStatus = true →
       redeploy_with_latest cfg env did =
         (Except.ok env.postBody,
          [HttpCall.get (deploymentsUrl cfg did),
           HttpCall.put (deploymentsUrl cfg did)
             (setField env.getBody "versionTag" (Json.str "latest")),
           HttpCall.post (triggerUrl cfg did)])) ∧
    (is2xx env.getStatus = false →
       redeploy_with_latest cfg env did =
         (Except.error (RedeployError.httpError
            (HttpCall.get (deploymentsUrl cfg did)) env.getStatus),
          [HttpCall.get (deploymentsUrl cfg did)])) ∧
    (is2xx env.getStatus = true → is2xx env.putStatus = false →
       redeploy_with_latest cfg env did =
         (Except.error (RedeployError.httpError
            (HttpCall.put (deploymentsUrl cfg did)
              (setField env.getBody "versionTag" (Json.str "latest")))
            env.putStatus),
          [HttpCall.get (deploymentsUrl cfg did),
           HttpCall.put (deploymentsUrl cfg did)
             (setField env.getBody "versionTag" (Json.str "latest"))]) ∧
       ∀ u, HttpCall.post u ∉ (redeploy_with_latest cfg env did).2) ∧
    (is2xx env.getStatus = true → is2xx env.putStatus = true →
       is2xx env.postStatus = false →
       redeploy_with_latest cfg env did =
         (Except.error (RedeployError.httpError
            (HttpCall.post (triggerUrl cfg did)) env.postStatus),
          [HttpCall.get (deploymentsUrl cfg did),
           HttpCall.put (deploymentsUrl cfg did)
             (setField env.getBody "versionTag" (Json.str "latest")),
           HttpCall.post (triggerUrl cfg did)])) := by
  refine ⟨?_, ?_, ?_, ?_⟩
  · intro h1 h2 h3
    simp [redeploy_with_latest, hp, hw, h1, h2, h3]
  · intro h1
    simp [redeploy_with_latest, hp, hw, h1]
  · intro h1 h2
    constructor
    · simp [redeploy_with_latest, hp, hw, h1, h2]
    · intro u
      simp [redeploy_with_latest, hp, hw, h1, h2]
  · intro h1 h2 h3
    simp [redeploy_with_latest, hp, hw, h1, h2, h3]

/-- Witness for C3 at concrete inputs: all three calls succeed, the POST
body is returned, and the full GET/PUT/POST sequence is issued. -/
theorem redeploy_call_sequence_witness :
    redeploy_with_latest ⟨"api", "ws"⟩
      ⟨200, [("versionTag", Json.str "v1")], 200, 200, Json.null⟩ "dep" =
      (Except.ok Json.null,
       [HttpCall.get (deploymentsUrl ⟨"api", "ws"⟩ "dep"),
        HttpCall.put (deploymentsUrl ⟨"api", "ws"⟩ "dep")
          (setField [("versionTag", Json.str "v1")] "versionTag"
            (Json.str "latest")),
        HttpCall.post (triggerUrl ⟨"api", "ws"⟩ "dep")]) :=
  (redeploy_call_sequence ⟨"api", "ws"⟩
      ⟨200, [("versionTag", Json.str "v1")], 200, 200, Json.null⟩ "dep"
      (by decide) (by decide)).1 rfl rfl rfl

/-- Claim C4: whenever the GET step succeeds, the body of the PUT call in
the issued sequence is the fetched descriptor with its `versionTag` field
set to the literal `"latest"`; that field reads back as `"latest"`
regardless of its original value, and every other field reads back
unchanged. -/
theorem redeploy_put_frame (cfg : RedeployConfig) (env : DeployEnv)
    (did : String) (hp : cfg.portalApi ≠ "") (hw : cfg.workspaceId ≠ "")
    (hget : is2xx env.getStatus = true) :
    HttpCall.put (deploymentsUrl cfg did)
        (setField env.getBody "versionTag" (Json.str "latest")) ∈
      (redeploy_with_latest cfg env did).2 ∧
    (∀ u b, HttpCall.put u b ∈ (redeploy_with_latest cfg env did).2 →
       b = setField env.getBody "versionTag" (Json.str "latest") ∧
       lookupField b "versionTag" = some (Json.str "latest") ∧
       ∀ k, k ≠ "versionTag" → lookupField b k = lookupField env.getBody k) := by
  have hb : ∀ b, b = setField env.getBody "versionTag" (Json.str "latest") →
      lookupField b "versionTag" = some (Json.str "latest") ∧
      ∀ k, k ≠ "versionTag" →
        lookupField b k = lookupField env.getBody k := by
    rintro b rfl
    exact ⟨lookupField_setField_self _ _ _,
      fun k hk => lookupField_setField_ne _ _ _ _ hk⟩
  by_cases h2 : is2xx env.putStatus
  · by_cases h3 : is2xx env.postStatus
    · constructor
      · simp [redeploy_with_latest, hp, hw, hget, h2, h3]
      · intro u b hmem
        simp [redeploy_with_latest, hp, hw, hget, h2, h3] at hmem
        exact ⟨hmem.2, hb b hmem.2⟩
    · constructor
      · simp [redeploy_with_latest, hp, hw, hget, h2, h3]
      · intro u b hmem
        simp [redeploy_with_latest, hp, hw, hget, h2, h3] at hmem
        exact ⟨hmem.2, hb b hmem.2⟩
  · constructor
    · simp [redeploy_with_latest, hp, hw, hget, h2]
    · intro u b hmem
      simp [redeploy_with_latest, hp, hw, hget, h2] at hmem
      exact ⟨hmem.2, hb b hmem.2⟩

/-- Witness for C4 at concrete inputs: a descriptor with a different
original version tag and one extra field is sent back with the tag
rewritten to latest and the extra field intact. -/
theorem redeploy_put_frame_witness :
    HttpCall.put (deploymentsUrl ⟨"api", "ws"⟩ "dep")
        (setField [("versionTag", Json.str "v1"), ("name", Json.str "svc")]
          "versionTag" (Json.str "latest")) ∈
      (redeploy_with_latest ⟨"api", "ws"⟩
        ⟨200, [("versionTag", Json.str "v1"), ("name", Json.str "svc")],
         500, 200, Json.null⟩ "dep").2 :=
  (redeploy_put_frame ⟨"api", "ws"⟩
      ⟨200, [("versionTag", Json.str "v1"), ("name", Json.str "svc")],
       500, 200, Json.null⟩ "dep" (by decide) (by decide) rfl).1

/-- Counterexample to claim C7 as stated: a request body that fails JSON
parsing is answered with status 500 — not one of the three claimed
outcomes 400, 401 or 200 (the try/except of the endpoint turns the parse
exception into a 500 response). -/
theorem validate_token_malformed_body_500 :
    (validate_token none (fun _ => false) [] "sid0" 0).1.status = 500 ∧
    ¬ ((validate_token none (fun _ => false) [] "sid0" 0).1.status = 400 ∨
       (validate_token none (fun _ => false) [] "sid0" 0).1.status = 401 ∨
       (validate_token none (fun _ => false) [] "sid0" 0).1.status = 200) := by
  refine ⟨rfl, ?_⟩
  rintro (h | h | h) <;> exact absurd h (by decide)

/-- Claim C7 (amended): for every request body that parses as a JSON
object, the validate endpoint returns exactly one of three outcomes: 400
with no cookie when the token field is absent or falsy, 401 with no
cookie when the token validator rejects the token, and 200 when it
validates, with a session created under a fresh id and the session
cookie set http-only, secure, cross-site-embeddable (samesite none) and
carrying the fixed 8-hour lifetime.  Bodies that fail to parse, or parse
to a non-object, yield 500 instead (see the counterexample). -/
theorem validate_token_outcomes (fields : List (String × Json))
    (validator : Json → Bool) (sessions : Store) (newId : String)
    (now : Nat) :
    (((lookupField fields "token").getD Json.null).truthy = false →
       validate_token (some (Json.obj fields)) validator sessions newId now =
         ({ status := 400, cookie := none }, sessions)) ∧
    (((lookupField fields "token").getD Json.null).truthy = true →
       validator ((lookupField fields "token").getD Json.null) = false →
       validate_token (some (Json.obj fields)) validator sessions newId now =
         ({ status := 401, cookie := none }, sessions)) ∧
    (((lookupField fields "token").getD Json.null).truthy = true →
       validator ((lookupField fields "token").getD Json.null) = true →
       validate_token (some (Json.obj fields)) validator sessions newId now =
         ({ status := 200,
            cookie := some { key := "quix_session", value := newId,
                             httponly := true, secure := true,
                             samesite := "none",
                             max_age := SESSION_DURATION_HOURS * 3600 } },
          (create_session sessions
            ((lookupField fields "token").getD Json.null) newId now).2)) := by
  refine ⟨?_, ?_, ?_⟩
  · intro h1
    simp [validate_token, h1]
  · intro h1 h2
    simp [validate_token, h1, h2]
  · intro h1 h2
    simp [validate_token, h1, h2, create_session]

/-- Witness for C7 (amended) at concrete inputs: a parsed object body with
a nonempty token accepted by the validator yields 200, a fresh session
and the full cookie contract. -/
theorem validate_token_outcomes_witness :
    validate_token (some (Json.obj [("token", Json.str "tok")]))
      (fun _ => true) [] "sid0" 0 =
      ({ status := 200,
         cookie := some { key := "quix_session", value := "sid0",
                          httponly := true, secure := true,
                          samesite := "none",
                          max_age := SESSION_DURATION_HOURS * 3600 } },
       (create_session [] (Json.str "tok") "sid0" 0).2) :=
  (validate_token_outcomes [("token", Json.str "tok")] (fun _ => true) []
      "sid0" 0).2.2 (by decide) rfl
